import Mathlib

/-!
Verification development for the Regional Sales Dashboard retrieval,
caching, parsing and aggregation pipeline.  The definitions below are a
shallow embedding of `google_sheets_client.py` and `data_processor.py`:
Python strings stay `String`, numbers become `ℚ`, `None`-able results
become `Option`, raised exceptions become `Except`, and wall-clock
timestamps become `ℤ` (epoch seconds).  String helpers are re-implemented
structurally over `String.data` so that concrete runs reduce inside the
kernel; each models the corresponding Python `str` operation.
-/

namespace SalesDash

/-- Does the character list start with the given pattern list?  (Helper for
the Python substring test.) -/
def charsStartWith : List Char → List Char → Bool
  | _, [] => true
  | [], _ :: _ => false
  | c :: cs, d :: ds => c = d && charsStartWith cs ds

/-- Does the pattern occur anywhere in the character list? -/
def charsContain : List Char → List Char → Bool
  | [], pat => pat.isEmpty
  | s :: cs, pat => charsStartWith (s :: cs) pat || charsContain cs pat

/-- Python's substring test `pat in s`. -/
def pyContains (s pat : String) : Bool := charsContain s.data pat.data

/-- The whitespace characters removed by Python `str.strip()`. -/
def isSpaceChar (c : Char) : Bool :=
  c = ' ' || c = '\t' || c = '\n' || c = '\r' || c = '\x0b' || c = '\x0c'

/-- Python `str.strip()`: drop leading and trailing whitespace. -/
def pyStrip (s : String) : String :=
  ⟨((s.data.dropWhile isSpaceChar).reverse.dropWhile isSpaceChar).reverse⟩

/-- Python `str.lower()` (ASCII letters, which is all the code compares). -/
def pyLower (s : String) : String := ⟨s.data.map Char.toLower⟩

/-- Python `str.replace(',', '')`: remove every comma. -/
def pyRemoveCommas (s : String) : String := ⟨s.data.filter (fun c => c ≠ ',')⟩

/-- All characters are decimal digits. -/
def allDigits (l : List Char) : Bool := l.all Char.isDigit

/-- Numeric value of a digit list. -/
def digitsVal (l : List Char) : ℕ :=
  l.foldl (fun acc c => 10 * acc + (c.toNat - 48)) 0

/-- Split a character list on a separator character (list analogue of
Python `str.split(sep)`). -/
def splitOnChar (c : Char) : List Char → List (List Char)
  | [] => [[]]
  | d :: rest =>
    let r := splitOnChar c rest
    if d = c then [] :: r
    else
      match r with
      | h :: t => (d :: h) :: t
      | [] => [[d]]

/-- Models Python `float()` on plain decimal numerals
(optional sign, digits, optional decimal point, at least one digit);
anything else raises `ValueError`, modelled as `none`.  The repository only
feeds cell texts of this shape to `float()`. -/
def pyFloat (s : String) : Option ℚ :=
  let (neg, t) :=
    match s.data with
    | '-' :: rest => (true, rest)
    | '+' :: rest => (false, rest)
    | l => (false, l)
  let signed : ℚ → ℚ := fun q => if neg then -q else q
  match splitOnChar '.' t with
  | [a] =>
      if !a.isEmpty && allDigits a then some (signed (digitsVal a)) else none
  | [a, b] =>
      if !(a ++ b).isEmpty && allDigits a && allDigits b then
        some (signed ((digitsVal (a ++ b) : ℚ) / (10 : ℚ) ^ b.length))
      else none
  | _ => none

/-- JSON-like Python values, as held in the disk cache. -/
inductive PyVal where
  | none
  | bool (b : Bool)
  | num (q : ℚ)
  | str (s : String)
  | list (items : List PyVal)
  | dict (items : List (String × PyVal))

/-- Python truthiness of a cached value (`if cached_data:`). -/
def pyTruthy : PyVal → Bool
  | PyVal.none => false
  | PyVal.bool b => b
  | PyVal.num q => q != 0
  | PyVal.str s => !s.isEmpty
  | PyVal.list items => !items.isEmpty
  | PyVal.dict items => !items.isEmpty

/-- Association-list lookup, modelling Python dict indexing
(`d[k]` / `d.get(k)`). -/
def alookup {α : Type} : List (String × α) → String → Option α
  | [], _ => Option.none
  | p :: t, k => if p.1 = k then some p.2 else alookup t k

/-! ## Cache Store (`_cache_data` / `_get_cached_data`) -/

/-- `CACHE_DURATION = 14400` seconds (4 hours), `google_sheets_client.py`
line 30. -/
def CACHE_DURATION : ℤ := 14400

/-- Persisted cache entry, as written by `_cache_data`: payload, write-time
timestamp, and the entry's own ttl (`duration`). -/
structure CacheEntry where
  data : PyVal
  timestamp : ℤ
  duration : ℤ

/-- The cache directory: one independently writable entry per cache key. -/
def CacheStore : Type := String → Option CacheEntry

def emptyStore : CacheStore := fun _ => Option.none

/-- `_cache_data` (lines 908-920): whole-entry replacement write of
payload, current timestamp and the given ttl. -/
def cacheData (store : CacheStore) (key : String) (payload : PyVal)
    (now : ℤ) (duration : ℤ) : CacheStore :=
  fun k => if k = key then some ⟨payload, now, duration⟩ else store k

/-- `_get_cached_data` (lines 895-906): return the stored payload when the
entry exists and `allow_expired or now - timestamp < CACHE_DURATION`;
otherwise `None`.  Note the freshness test reads the global
`CACHE_DURATION`, not the entry's own `duration` field. -/
def getCachedData (store : CacheStore) (key : String) (allowExpired : Bool)
    (now : ℤ) : Option PyVal :=
  match store key with
  | some e =>
      if allowExpired || decide (now - e.timestamp < CACHE_DURATION) then some e.data
      else Option.none
  | Option.none => Option.none

/-- The truthiness test the orchestrator call sites apply to the value a
strict cache read returned (`cached_data = self._get_cached_data(...); if
cached_data: ... return cached_data`). -/
def servedFromCache (c : Option PyVal) : Option PyVal :=
  match c with
  | some d => if pyTruthy d then some d else Option.none
  | Option.none => Option.none

/-- The strict cache check of `get_sheet_data` (lines 694-699). -/
def getSheetDataCacheHit (store : CacheStore) (key : String) (now : ℤ) :
    Option PyVal :=
  servedFromCache (getCachedData store key false now)

/-- The strict cache check of `get_all_sheets_data_batch`
(lines 793-803). -/
def getAllSheetsBatchCacheHit (store : CacheStore) (key : String) (now : ℤ) :
    Option PyVal :=
  servedFromCache (getCachedData store key false now)

/-! ## Rate-Limited Remote Adapter (`_rate_limit_delay`, retry loop) -/

/-- `REQUEST_DELAY = 5.0` seconds, line 31. -/
def REQUEST_DELAY : ℤ := 5

/-- Adapter timing state: the current wall clock and the shared
`last_api_call_time`. -/
structure RLState where
  clock : ℤ
  lastApiCall : ℤ

/-- `_rate_limit_delay` (lines 83-94): if less than `REQUEST_DELAY` has
passed since `last_api_call_time`, sleep the difference; then set
`last_api_call_time` to the current time. -/
def rateLimitDelay (s : RLState) : RLState :=
  let since := s.clock - s.lastApiCall
  let clock' := if since < REQUEST_DELAY then s.clock + (REQUEST_DELAY - since) else s.clock
  ⟨clock', clock'⟩

/-- The three kinds of remote call one attempt of
`batch_get_all_sheet_data` issues. -/
inductive RemoteCall where
  | openByKey
  | worksheetResolve
  | batchGet
deriving DecidableEq

/-- Remote-call trace of one successful attempt of
`batch_get_all_sheet_data` with a configured worksheet name:
`_get_worksheet` runs `_rate_limit_delay`, then `client.open_by_key`, then
`sheet.worksheet(name)`, and the attempt then calls `worksheet.batch_get`
directly, with no further gate.  `d1` and `d2` are the (nonnegative)
durations of the first two remote calls; only the gate moves
`last_api_call_time`. -/
def batchReadCallTimes (s0 : RLState) (d1 d2 : ℤ) : List (RemoteCall × ℤ) :=
  let s1 := rateLimitDelay s0
  let tOpen := s1.clock
  let tWs := tOpen + d1
  let tBatch := tWs + d2
  [(RemoteCall.openByKey, tOpen), (RemoteCall.worksheetResolve, tWs),
   (RemoteCall.batchGet, tBatch)]

/-- Error classification recorded by `_record_error`. -/
inductive ErrType where
  | RATE_LIMIT
  | API_ERROR
  | GENERAL_ERROR
deriving DecidableEq

/-- The client's `last_error_type` / `last_error_message` fields. -/
structure ErrState where
  lastErrorType : Option ErrType
  lastErrorMessage : Option String
deriving DecidableEq

/-- `_record_error` (lines 1116-1120). -/
def recordError (_s : ErrState) (t : ErrType) (msg : String) : ErrState :=
  ⟨some t, some msg⟩

/-- The record returned by `get_last_error_info` (lines 1127-1133). -/
structure ErrorInfo where
  errorType : Option ErrType
  errorMessage : Option String
  isRateLimit : Bool
deriving DecidableEq

/-- `get_last_error_info`. -/
def getLastErrorInfo (e : ErrState) : ErrorInfo :=
  ⟨e.lastErrorType, e.lastErrorMessage,
   decide (e.lastErrorType = some ErrType.RATE_LIMIT)⟩

/-- Outcome of the remote interaction inside one iteration of the retry
loop of `batch_get_all_sheet_data`: the worksheet could not be resolved
(`_get_worksheet` returned `None`), the batched read succeeded, a
`gspread` `APIError` was raised with the given message, or some other
exception was raised. -/
inductive AttemptOutcome where
  | wsFail
  | ok (blocks : List (List (List String)))
  | apiError (msg : String)
  | otherError (msg : String)

/-- The rate-limit classification test
`"RATE_LIMIT_EXCEEDED" in str(e) or "429" in str(e)` (line 157). -/
def isRateLimitMsg (msg : String) : Bool :=
  pyContains msg "RATE_LIMIT_EXCEEDED" || pyContains msg "429"

/-- Result of `batch_get_all_sheet_data`: final error state, number of loop
iterations executed (each performing remote interaction), and the fetched
blocks (`Option.none` models the empty-dict failure return). -/
structure BatchCallResult where
  errs : ErrState
  attemptsMade : ℕ
  blocks : Option (List (List (List String)))
deriving DecidableEq

/-- The retry loop of `batch_get_all_sheet_data` (lines 115-174,
`max_retries = 3`), iterating over the remaining attempt indices of
`range(max_retries)`.  `resp n` is the remote outcome of iteration `n`.
On a rate-limited `APIError` the error is recorded and, when further
iterations remain (`attempt < max_retries - 1`), the loop backs off and
continues; otherwise the loop falls through and the function returns the
empty dict.  Any other `APIError` or exception is recorded and returned as
the empty dict with no retry. -/
def batchGetLoop (resp : ℕ → AttemptOutcome) :
    List ℕ → ErrState → BatchCallResult
  | [], e => ⟨e, 0, Option.none⟩
  | attempt :: rest, e =>
    match resp attempt with
    | AttemptOutcome.wsFail => ⟨e, 1, Option.none⟩
    | AttemptOutcome.ok blocks => ⟨e, 1, some blocks⟩
    | AttemptOutcome.apiError msg =>
        if isRateLimitMsg msg then
          let e' := recordError e ErrType.RATE_LIMIT msg
          if rest.isEmpty then ⟨e', 1, Option.none⟩
          else
            let r := batchGetLoop resp rest e'
            ⟨r.errs, r.attemptsMade + 1, r.blocks⟩
        else ⟨recordError e ErrType.API_ERROR msg, 1, Option.none⟩
    | AttemptOutcome.otherError msg =>
        ⟨recordError e ErrType.GENERAL_ERROR msg, 1, Option.none⟩

/-- `batch_get_all_sheet_data`: run the retry loop over
`range(max_retries)` with `max_retries = 3`. -/
def batchGetAllSheetData (resp : ℕ → AttemptOutcome) (e0 : ErrState) :
    BatchCallResult :=
  batchGetLoop resp (List.range 3) e0

/-! ## Funnel parser (`process_funnel_data_batch`, lines 370-447) -/

/-- Header-label keywords (line 417). -/
def headerKeywords : List String :=
  ["status", "timestamp", "update", "header", "title", "created date"]

/-- One projected funnel row record: the eight fixed column offsets
0, 6, 7, 8, 9, 10, 13, 14, kept as raw cell strings (lines 424-433). -/
structure FunnelRow where
  created_date : String
  sum_of_won : String
  lead_mql_pct : String
  mql_sql_pct : String
  sql_ms_pct : String
  ms_mc_pct : String
  lead_to_win_pct : String
  lead_to_sql_pct : String
deriving DecidableEq

/-- `str(row[0]).strip() if row[0] else ""` (line 415); reading `row[0]`
of an empty row raises `IndexError`. -/
def funnelFirstCol (row : List String) : Except Unit String :=
  match row.head? with
  | some c => Except.ok (if c = "" then "" else pyStrip c)
  | Option.none => Except.error ()

/-- `row[i]`: the cell at offset `i`, raising `IndexError` when the row is
too short. -/
def cellIndex (row : List String) (i : ℕ) : Except Unit String :=
  match row.get? i with
  | some v => Except.ok v
  | Option.none => Except.error ()

/-- Project the eight fixed column offsets into a row record; a missing
offset raises `IndexError` (lines 424-433). -/
def projectFunnelRow (row : List String) : Except Unit FunnelRow := do
  let c0 ← cellIndex row 0
  let c6 ← cellIndex row 6
  let c7 ← cellIndex row 7
  let c8 ← cellIndex row 8
  let c9 ← cellIndex row 9
  let c10 ← cellIndex row 10
  let c13 ← cellIndex row 13
  let c14 ← cellIndex row 14
  Except.ok ⟨c0, c6, c7, c8, c9, c10, c13, c14⟩

/-- Does the first cell carry a header label (contains any keyword,
case-insensitively)? (lines 416-417) -/
def isHeaderCell (firstCol : String) : Bool :=
  headerKeywords.any (fun kw => pyContains (pyLower firstCol) kw)

/-- Does the first cell fail to look like a date (shorter than 8
characters, or no digit)? (line 421) -/
def notDateLike (firstCol : String) : Bool :=
  decide (firstCol.length < 8) || !(firstCol.data.any Char.isDigit)

/-- The row loop of `process_funnel_data_batch` (lines 413-434): skip
header rows and rows that do not look like dates, otherwise project the
eight offsets; the first uncaught `IndexError` escapes the whole loop. -/
def funnelRowLoop : List (List String) → Except Unit (List FunnelRow)
  | [] => Except.ok []
  | row :: rest => do
      let firstCol ← funnelFirstCol row
      if isHeaderCell firstCol then funnelRowLoop rest
      else if notDateLike firstCol then funnelRowLoop rest
      else do
        let tr ← projectFunnelRow row
        let rest' ← funnelRowLoop rest
        Except.ok (tr :: rest')

/-- Output of the funnel parser: `raw_data` is the most recent row
(`Option.none` models the empty dict) and `table_data` the full filtered
list. -/
structure FunnelResult where
  raw_data : Option FunnelRow
  table_data : List FunnelRow
deriving DecidableEq

/-- `process_funnel_data_batch` after the batched fetch (lines 399-447):
concatenate the non-empty range blocks, keep rows with at least 14 cells,
run the row loop, expose the last remaining row as `raw_data`; any
exception escaping the loop is caught by the function-level handler, which
returns the empty structure. -/
def processFunnelDataBatch (blocks : List (List (List String))) :
    FunnelResult :=
  let all_data := (blocks.filter (fun b => !b.isEmpty)).flatten
  if all_data.isEmpty then ⟨Option.none, []⟩
  else
    let filtered := all_data.filter (fun row => decide (14 ≤ row.length))
    match funnelRowLoop filtered with
    | Except.ok table => ⟨table.getLast?, table⟩
    | Except.error _ => ⟨Option.none, []⟩

/-! ## Velocity parser (`process_velocity_data_batch`, lines 449-548) -/

/-- The six named duration metrics. -/
inductive VMetric where
  | lead_to_sql
  | lead_to_ms
  | ms_to_1st_meeting
  | ms_to_mc
  | mc_to_closed
  | lead_to_win
deriving DecidableEq

/-- One weekly cohort record (`week_data`, lines 514-526). -/
structure WeekData where
  week_range : String
  lead_to_sql : ℚ
  lead_to_ms : ℚ
  ms_to_1st_meeting : ℚ
  ms_to_mc : ℚ
  mc_to_closed : ℚ
  lead_to_win : ℚ
deriving DecidableEq

/-- Metric projection out of a weekly record. -/
def getVM (w : WeekData) : VMetric → ℚ
  | VMetric.lead_to_sql => w.lead_to_sql
  | VMetric.lead_to_ms => w.lead_to_ms
  | VMetric.ms_to_1st_meeting => w.ms_to_1st_meeting
  | VMetric.ms_to_mc => w.ms_to_mc
  | VMetric.mc_to_closed => w.mc_to_closed
  | VMetric.lead_to_win => w.lead_to_win

/-- The per-metric averages exposed as the velocity `raw_data`
(lines 532-538). -/
structure VelocityAverages where
  lead_to_sql_avg : ℚ
  lead_to_ms_avg : ℚ
  ms_to_1st_meeting_avg : ℚ
  ms_to_mc_avg : ℚ
  mc_to_closed_avg : ℚ
  lead_to_win_avg : ℚ
deriving DecidableEq

/-- Average projection out of the averages record. -/
def getAvg (a : VelocityAverages) : VMetric → ℚ
  | VMetric.lead_to_sql => a.lead_to_sql_avg
  | VMetric.lead_to_ms => a.lead_to_ms_avg
  | VMetric.ms_to_1st_meeting => a.ms_to_1st_meeting_avg
  | VMetric.ms_to_mc => a.ms_to_mc_avg
  | VMetric.mc_to_closed => a.mc_to_closed_avg
  | VMetric.lead_to_win => a.lead_to_win_avg

/-- `_safe_extract_float` (lines 563-573): 0 when the offset is past the
row end, the cell is empty or whitespace, or the comma-stripped text fails
to convert; the converted number otherwise. -/
def safeExtractFloat (row : List String) (i : ℕ) : ℚ :=
  match row.get? i with
  | some v =>
      if !v.isEmpty && !(pyStrip v).isEmpty then
        match pyFloat (pyStrip (pyRemoveCommas v)) with
        | some q => q
        | Option.none => 0
      else 0
  | Option.none => 0

/-- Month tokens accepted for weekly cohorts (lines 487-489). -/
def velocityMonthTokens : List String :=
  ["05/2025", "06/2025", "07/2025", "08/2025", "09/2025", "10/2025",
   "11/2025", "12/2025"]

/-- The cohort-cell test of `process_velocity_data_batch`
(lines 484-489). -/
def isCohortCell (cell : String) : Bool :=
  let s := pyStrip cell
  pyContains s " - " && (pyContains s "2025" || pyContains s "2024") &&
    (pyContains s "28/04/2025" ||
      velocityMonthTokens.any (fun t => pyContains s t))

/-- Scan every cell of every row for cohort tokens; record the row index
and the trimmed cell text (lines 479-495). -/
def findWeeklyCohorts (all_values : List (List String)) :
    List (ℕ × String) :=
  (all_values.enum.map (fun p =>
    p.2.filterMap (fun cell =>
      if isCohortCell cell then some (p.1, pyStrip cell)
      else Option.none))).flatten

/-- Extract the weekly record for one cohort: the data row is the row
immediately following the cohort row; a cohort whose data row is past the
sheet end contributes nothing (lines 505-530). -/
def cohortWeek (all_values : List (List String)) (c : ℕ × String) :
    Option WeekData :=
  match all_values.get? (c.1 + 1) with
  | some dataRow => some
      ⟨c.2,
       safeExtractFloat dataRow 3, safeExtractFloat dataRow 4,
       safeExtractFloat dataRow 5, safeExtractFloat dataRow 6,
       safeExtractFloat dataRow 7, safeExtractFloat dataRow 8⟩
  | Option.none => Option.none

/-- Positive-contributor average (lines 535-538): mean of the strictly
positive values, `0` when there are none. -/
def posAvg (l : List ℚ) : ℚ :=
  let values := l.filter (fun v => decide (0 < v))
  if values.isEmpty then 0 else values.sum / values.length

/-- Output of the velocity parser: the averages record (`Option.none`
models the empty dict returned when no cohort was found) and the full
weekly list. -/
structure VelocityResult where
  raw_data : Option VelocityAverages
  weekly_data : List WeekData
deriving DecidableEq

/-- `process_velocity_data_batch` after the batched fetch: take the first
block as the whole-sheet values, find the weekly cohorts, read each
cohort's following data row, and average each metric over the weeks whose
value is strictly positive; `raw_data` stays the empty dict when no weekly
record was produced. -/
def processVelocityDataBatch (blocks : List (List (List String))) :
    VelocityResult :=
  let all_values := match blocks with
    | [] => []
    | b :: _ => b
  if all_values.isEmpty then ⟨Option.none, []⟩
  else
    let cohorts := findWeeklyCohorts all_values
    if cohorts.isEmpty then ⟨Option.none, []⟩
    else
      let weekly := cohorts.filterMap (cohortWeek all_values)
      if weekly.isEmpty then ⟨Option.none, weekly⟩
      else
        some
          ⟨posAvg (weekly.map (fun w => w.lead_to_sql)),
           posAvg (weekly.map (fun w => w.lead_to_ms)),
           posAvg (weekly.map (fun w => w.ms_to_1st_meeting)),
           posAvg (weekly.map (fun w => w.ms_to_mc)),
           posAvg (weekly.map (fun w => w.mc_to_closed)),
           posAvg (weekly.map (fun w => w.lead_to_win))⟩
        |> fun avgs => ⟨avgs, weekly⟩

/-! ## Metric formulas (`DataProcessor.calculate_metric`, `METRICS_CONFIG`) -/

/-- Arithmetic expressions as Python `eval` sees the configured formula
strings. -/
inductive Expr where
  | num (n : ℚ)
  | var (name : String)
  | add (a b : Expr)
  | mul (a b : Expr)
  | div (a b : Expr)
deriving DecidableEq

/-- Python evaluation of an expression; dividing by zero raises
`ZeroDivisionError`, modelled as `Except.error`. -/
def evalExpr (env : String → ℚ) : Expr → Except Unit ℚ
  | Expr.num n => Except.ok n
  | Expr.var v => Except.ok (env v)
  | Expr.add a b => do
      let x ← evalExpr env a
      let y ← evalExpr env b
      Except.ok (x + y)
  | Expr.mul a b => do
      let x ← evalExpr env a
      let y ← evalExpr env b
      Except.ok (x * y)
  | Expr.div a b => do
      let x ← evalExpr env a
      let y ← evalExpr env b
      if y = 0 then Except.error () else Except.ok (x / y)

/-- The denominator sub-expressions of every division node. -/
def denomExprs : Expr → List Expr
  | Expr.num _ => []
  | Expr.var _ => []
  | Expr.add a b => denomExprs a ++ denomExprs b
  | Expr.mul a b => denomExprs a ++ denomExprs b
  | Expr.div a b => denomExprs a ++ denomExprs b ++ [b]

/-- One `METRICS_CONFIG` entry (`config.py` lines 179-280).  The formula
string is embedded as the expression `ast` that Python `eval` evaluates,
together with `hasSlash` (whether a `/` occurs in the string, line 30 of
`data_processor.py`) and `splitDenom`, the expression denoted by the text
after the last slash with parentheses stripped
(`formula.split('/')[-1].strip()`, lines 33-35); for a slash-free formula
that split returns the whole string, so `splitDenom = ast` there. -/
structure MetricEntry where
  key : String
  ast : Expr
  hasSlash : Bool
  splitDenom : Expr
  format : String
  category : String
deriving DecidableEq

/-- `METRICS_CONFIG`, transcribed entry by entry from `config.py`. -/
def metricsConfig : List MetricEntry :=
  [⟨"onsite_vip_percentage",
    Expr.mul (Expr.div (Expr.var "onsite_vip") (Expr.var "total_deals")) (Expr.num 100),
    true, Expr.mul (Expr.var "total_deals") (Expr.num 100), "pct1", "vip"⟩,
   ⟨"remote_vip_percentage",
    Expr.mul (Expr.div (Expr.var "remote_vip") (Expr.var "total_deals")) (Expr.num 100),
    true, Expr.mul (Expr.var "total_deals") (Expr.num 100), "pct1", "vip"⟩,
   ⟨"total_vip_percentage",
    Expr.mul (Expr.div (Expr.add (Expr.var "onsite_vip") (Expr.var "remote_vip"))
      (Expr.var "total_deals")) (Expr.num 100),
    true, Expr.mul (Expr.var "total_deals") (Expr.num 100), "pct1", "vip"⟩,
   ⟨"total_deals", Expr.var "total_deals", false, Expr.var "total_deals",
    "int0", "vip"⟩,
   ⟨"lead_conversion_rate",
    Expr.mul (Expr.div (Expr.var "qualified_leads") (Expr.var "leads")) (Expr.num 100),
    true, Expr.mul (Expr.var "leads") (Expr.num 100), "pct1", "funnel"⟩,
   ⟨"opportunity_conversion_rate",
    Expr.mul (Expr.div (Expr.var "opportunities") (Expr.var "qualified_leads")) (Expr.num 100),
    true, Expr.mul (Expr.var "qualified_leads") (Expr.num 100), "pct1", "funnel"⟩,
   ⟨"close_rate",
    Expr.mul (Expr.div (Expr.var "closed_won") (Expr.var "opportunities")) (Expr.num 100),
    true, Expr.mul (Expr.var "opportunities") (Expr.num 100), "pct1", "funnel"⟩,
   ⟨"total_leads", Expr.var "leads", false, Expr.var "leads", "int0", "funnel"⟩,
   ⟨"lead_to_sql_avg", Expr.var "lead_to_sql_avg", false,
    Expr.var "lead_to_sql_avg", "days1", "velocity"⟩,
   ⟨"lead_to_ms_avg", Expr.var "lead_to_ms_avg", false,
    Expr.var "lead_to_ms_avg", "days1", "velocity"⟩,
   ⟨"ms_to_1st_meeting_avg", Expr.var "ms_to_1st_meeting_avg", false,
    Expr.var "ms_to_1st_meeting_avg", "days1", "velocity"⟩,
   ⟨"ms_to_mc_avg", Expr.var "ms_to_mc_avg", false,
    Expr.var "ms_to_mc_avg", "days1", "velocity"⟩,
   ⟨"mc_to_closed_avg", Expr.var "mc_to_closed_avg", false,
    Expr.var "mc_to_closed_avg", "days1", "velocity"⟩,
   ⟨"lead_to_win_avg", Expr.var "lead_to_win_avg", false,
    Expr.var "lead_to_win_avg", "days1", "velocity"⟩,
   ⟨"membership_attachment_rate",
    Expr.mul (Expr.div (Expr.add (Expr.var "membership_1") (Expr.var "membership_2"))
      (Expr.var "total_deals")) (Expr.num 100),
    true, Expr.mul (Expr.var "total_deals") (Expr.num 100), "pct1", "membership"⟩,
   ⟨"total_deals_membership", Expr.var "total_deals", false,
    Expr.var "total_deals", "int0", "membership"⟩]

/-- The evaluation environment `safe_env`: every variable defaults to 0
when missing from the data dict (`data_dict.get(var, 0)`). -/
def envOf (data : List (String × ℚ)) : String → ℚ :=
  fun v => (alookup data v).getD 0

/-- `DataProcessor.calculate_metric` (lines 17-49): when the formula
contains a slash, first evaluate the text after the last slash and
short-circuit to `0.0` when it is zero; then evaluate the whole formula;
any exception during either evaluation is caught and yields `None`. -/
def calculateMetric (data : List (String × ℚ)) (e : MetricEntry) :
    Option ℚ :=
  let env := envOf data
  if e.hasSlash then
    match evalExpr env e.splitDenom with
    | Except.ok d =>
        if d = 0 then some 0
        else
          match evalExpr env e.ast with
          | Except.ok v => some v
          | Except.error _ => Option.none
    | Except.error _ => Option.none
  else
    match evalExpr env e.ast with
    | Except.ok v => some v
    | Except.error _ => Option.none

/-! ## Regional aggregation (`DataProcessor.aggregate_regional_data`) -/

/-- Per-country monthly VIP record (fields read with
`month_data.get(field, 0)`). -/
structure VipMonth where
  total_deals : ℚ
  onsite_vip_deals : ℚ
  remote_vip_deals : ℚ
deriving DecidableEq

/-- Field-wise addition used by the VIP roll-up loop (lines 301-303). -/
def VipMonth.addM (x y : VipMonth) : VipMonth :=
  ⟨x.total_deals + y.total_deals, x.onsite_vip_deals + y.onsite_vip_deals,
   x.remote_vip_deals + y.remote_vip_deals⟩

/-- Per-country monthly membership record. -/
structure MemMonth where
  total_deals : ℚ
  membership_1 : ℚ
  membership_2 : ℚ
deriving DecidableEq

/-- Field-wise addition used by the membership roll-up loop
(lines 354-356). -/
def MemMonth.addM (x y : MemMonth) : MemMonth :=
  ⟨x.total_deals + y.total_deals, x.membership_1 + y.membership_1,
   x.membership_2 + y.membership_2⟩

/-- Python dict accumulate (`if month not in regional: regional[month] =
zeros` then `+=` on each field): if the key is absent append the new
record (zeros plus the record), otherwise add onto the existing entry. -/
def dictAdd {α : Type} (add : α → α → α) :
    List (String × α) → String → α → List (String × α)
  | [], k, v => [(k, v)]
  | p :: t, k, v =>
      if p.1 = k then (p.1, add p.2 v) :: t else p :: dictAdd add t k v

/-- The double loop of `aggregate_regional_data` (VIP block lines
292-303, membership block lines 345-356): fold every country's month map
into one regional map. -/
def regionalMonthlySums {α : Type} (add : α → α → α)
    (countries : List (List (String × α))) : List (String × α) :=
  countries.foldl (fun acc c => c.foldl (fun a p => dictAdd add a p.1 p.2) acc) []

/-- Regional VIP month after the percentage recompute (lines 305-311);
the display-only `month_label` field is omitted. -/
structure VipRegionalMonth where
  total_deals : ℚ
  onsite_vip_deals : ℚ
  remote_vip_deals : ℚ
  onsite_vip_percentage : ℚ
  remote_vip_percentage : ℚ
  total_vip_percentage : ℚ
deriving DecidableEq

/-- The percentage recompute applied to each regional VIP month
(lines 306-310). -/
def vipRecompute (t : VipMonth) : VipRegionalMonth :=
  let op := if 0 < t.total_deals then t.onsite_vip_deals / t.total_deals * 100 else 0
  let rp := if 0 < t.total_deals then t.remote_vip_deals / t.total_deals * 100 else 0
  ⟨t.total_deals, t.onsite_vip_deals, t.remote_vip_deals, op, rp, op + rp⟩

/-- VIP regional aggregation: summed months, then recomputed percentages.
The final sort by parsed month date (line 313) only reorders entries and
leaves the month-to-record association unchanged, so it is not
modelled. -/
def aggregateRegionalVip (countries : List (List (String × VipMonth))) :
    List (String × VipRegionalMonth) :=
  (regionalMonthlySums VipMonth.addM countries).map
    (fun p => (p.1, vipRecompute p.2))

/-- Regional membership month after the attachment-rate recompute
(lines 359-362); the display-only `month_label` field is omitted. -/
structure MemRegionalMonth where
  total_deals : ℚ
  membership_1 : ℚ
  membership_2 : ℚ
  membership_attachment_rate : ℚ
deriving DecidableEq

/-- The attachment-rate recompute applied to each regional membership
month (lines 360-361). -/
def memRecompute (t : MemMonth) : MemRegionalMonth :=
  let r := if 0 < t.total_deals then
    (t.membership_1 + t.membership_2) / t.total_deals * 100 else 0
  ⟨t.total_deals, t.membership_1, t.membership_2, r⟩

/-- Membership regional aggregation: summed months, then recomputed
attachment rates (the final sort, line 364, again only reorders). -/
def aggregateRegionalMembership
    (countries : List (List (String × MemMonth))) :
    List (String × MemRegionalMonth) :=
  (regionalMonthlySums MemMonth.addM countries).map
    (fun p => (p.1, memRecompute p.2))

/-- A field's value for month `m` in one country: the looked-up record's
field, or 0 when the country has no such month. -/
def projOpt {α : Type} (proj : α → ℚ) : Option α → ℚ
  | some x => proj x
  | Option.none => 0

/-- The per-field sum of a month's values across all countries (a country
without that month contributes 0). -/
def monthFieldSum {α : Type} (proj : α → ℚ)
    (countries : List (List (String × α))) (m : String) : ℚ :=
  (countries.map (fun c => projOpt proj (alookup c m))).sum


/-- Sum of a field over the pairs of a flat month list that carry the
given month key (helper for reasoning about the regional fold). -/
def pairProjSum {α : Type} (proj : α → ℚ) (ps : List (String × α))
    (m : String) : ℚ :=
  ((ps.filter (fun p => decide (p.1 = m))).map (fun p => proj p.2)).sum

/-! ## Theorems -/

/-- C6, claim theorem.  Round-trip through the cache: writing an entry
(always written with the default ttl `CACHE_DURATION`, as every call site
does) and strict-reading it within the TTL returns exactly the payload
written; once the entry's age reaches the TTL, a strict read misses while
a permissive read still returns the stored payload. -/
theorem claim_C6 (store : CacheStore) (key : String) (payload : PyVal)
    (tw tr : ℤ) :
    (tr - tw < CACHE_DURATION →
      getCachedData (cacheData store key payload tw CACHE_DURATION) key false tr
        = some payload) ∧
    (CACHE_DURATION ≤ tr - tw →
      getCachedData (cacheData store key payload tw CACHE_DURATION) key false tr
        = Option.none ∧
      getCachedData (cacheData store key payload tw CACHE_DURATION) key true tr
        = some payload) := by
  refine ⟨fun h => ?_, fun h => ⟨?_, ?_⟩⟩ <;>
    simp [getCachedData, cacheData] <;> omega

/-- C6, witness: the round-trip evaluated at a concrete key, payload and
pair of read times. -/
theorem claim_C6_witness :
    getCachedData (cacheData emptyStore "k" (PyVal.num 7) 0 CACHE_DURATION)
      "k" false 100 = some (PyVal.num 7) ∧
    (getCachedData (cacheData emptyStore "k" (PyVal.num 7) 0 CACHE_DURATION)
      "k" false 14400 = Option.none ∧
    getCachedData (cacheData emptyStore "k" (PyVal.num 7) 0 CACHE_DURATION)
      "k" true 14400 = some (PyVal.num 7)) :=
  ⟨(claim_C6 emptyStore "k" (PyVal.num 7) 0 100).1 (by decide),
   (claim_C6 emptyStore "k" (PyVal.num 7) 0 14400).2 (by decide)⟩

/-- C7, counterexample.  An entry written with per-entry ttl 1 second and
strict-read at age 2 seconds: the claim demands a miss
(`now - timestamp >= ttl`), but the read hits, because `_get_cached_data`
compares against the global `CACHE_DURATION` and ignores the persisted
`duration` field. -/
theorem claim_C7_counterexample :
    getCachedData (cacheData emptyStore "k" (PyVal.num 7) 0 1) "k" false 2
      = some (PyVal.num 7) ∧
    (1 : ℤ) ≤ 2 - 0 := by
  refine ⟨?_, by decide⟩
  simp [getCachedData, cacheData]
  decide

/-- C7, amended claim: after `put(key, payload, ttl)`, a strict read
misses exactly when `now - timestamp >= CACHE_DURATION` (the global
default), regardless of the per-entry `duration` recorded in the persisted
entry. -/
theorem claim_C7_amended (store : CacheStore) (key : String)
    (payload : PyVal) (ts dur now : ℤ) :
    getCachedData (cacheData store key payload ts dur) key false now
      = Option.none ↔ CACHE_DURATION ≤ now - ts := by
  simp [getCachedData, cacheData]

/-- C10, counterexample.  A fresh entry whose payload is the empty dict:
the claim says the low-level cache read reports a miss, but
`_get_cached_data` returns the stored empty payload (distinguishable from
the `None` miss). -/
theorem claim_C10_counterexample :
    getCachedData (cacheData emptyStore "k" (PyVal.dict []) 0 CACHE_DURATION)
      "k" false 10 = some (PyVal.dict []) := by
  simp [getCachedData, cacheData]
  decide

/-- C10, amended claim: for a fresh entry with a falsy payload, the
low-level cache read returns the stored payload (a hit), but the
orchestrator call sites in `get_sheet_data` and
`get_all_sheets_data_batch` test the returned value for truthiness and so
treat it as a miss — an empty payload is never served from cache at those
call sites. -/
theorem claim_C10_amended (store : CacheStore) (key : String)
    (payload : PyVal) (ts now : ℤ) (hfresh : now - ts < CACHE_DURATION)
    (hfalsy : pyTruthy payload = false) :
    getCachedData (cacheData store key payload ts CACHE_DURATION) key false now
      = some payload ∧
    getSheetDataCacheHit (cacheData store key payload ts CACHE_DURATION) key now
      = Option.none ∧
    getAllSheetsBatchCacheHit (cacheData store key payload ts CACHE_DURATION) key now
      = Option.none := by
  have h1 : getCachedData (cacheData store key payload ts CACHE_DURATION) key false now
      = some payload := by
    simp [getCachedData, cacheData, hfresh]
  refine ⟨h1, ?_, ?_⟩ <;>
    simp [getSheetDataCacheHit, getAllSheetsBatchCacheHit, servedFromCache, h1, hfalsy]

/-- C10, witness: the amended claim evaluated at the empty-dict payload. -/
theorem claim_C10_witness :
    getCachedData (cacheData emptyStore "k" (PyVal.dict []) 0 CACHE_DURATION)
      "k" false 10 = some (PyVal.dict []) ∧
    getSheetDataCacheHit (cacheData emptyStore "k" (PyVal.dict []) 0 CACHE_DURATION)
      "k" 10 = Option.none ∧
    getAllSheetsBatchCacheHit (cacheData emptyStore "k" (PyVal.dict []) 0 CACHE_DURATION)
      "k" 10 = Option.none :=
  claim_C10_amended emptyStore "k" (PyVal.dict []) 0 10 (by decide) rfl

/-- C3, counterexample.  Starting from clock 0 and last-call 0 with
instantaneous calls, one batched read issues `open_by_key`, the worksheet
resolution and `batch_get` all at time 5: consecutive remote calls are 0
seconds apart, not the `REQUEST_DELAY` the claim asserts for every pair of
consecutive remote calls. -/
theorem claim_C3_counterexample :
    batchReadCallTimes ⟨0, 0⟩ 0 0 =
      [(RemoteCall.openByKey, 5), (RemoteCall.worksheetResolve, 5),
       (RemoteCall.batchGet, 5)] ∧
    ¬ (REQUEST_DELAY ≤ (5 : ℤ) - 5) := by
  refine ⟨?_, by decide⟩
  simp [batchReadCallTimes, rateLimitDelay, REQUEST_DELAY]

/-- C3, amended claim: within one batched read only the first remote call
(`open_by_key`) is preceded by the `_rate_limit_delay` gate against the
shared last-call timestamp — its issue time is at least
`lastApiCall + REQUEST_DELAY` and becomes the new shared timestamp — while
the worksheet resolution and the `batch_get` of the same read follow after
the first call's and second call's durations with no further enforced
delay. -/
theorem claim_C3_amended (s0 : RLState) (d1 d2 : ℤ) :
    ∃ t1 : ℤ,
      batchReadCallTimes s0 d1 d2 =
        [(RemoteCall.openByKey, t1), (RemoteCall.worksheetResolve, t1 + d1),
         (RemoteCall.batchGet, t1 + d1 + d2)] ∧
      s0.lastApiCall + REQUEST_DELAY ≤ t1 ∧
      (rateLimitDelay s0).lastApiCall = t1 := by
  refine ⟨(rateLimitDelay s0).clock, rfl, ?_, rfl⟩
  simp [rateLimitDelay, REQUEST_DELAY]
  split <;> omega

/-- C3, witness for the amended claim: a concrete starting state. -/
theorem claim_C3_witness :
    ∃ t1 : ℤ,
      batchReadCallTimes ⟨10, 3⟩ 1 1 =
        [(RemoteCall.openByKey, t1), (RemoteCall.worksheetResolve, t1 + 1),
         (RemoteCall.batchGet, t1 + 1 + 1)] ∧
      (3 : ℤ) + REQUEST_DELAY ≤ t1 ∧
      (rateLimitDelay ⟨10, 3⟩).lastApiCall = t1 :=
  claim_C3_amended ⟨10, 3⟩ 1 1

/-- C2, claim theorem.  If the batched read receives a rate-limited
`APIError` on every attempt, `batch_get_all_sheet_data` executes exactly 3
attempts, returns the empty-dict failure (no blocks), and the error-info
interface classifies the failure as `RATE_LIMIT`. -/
theorem claim_C2 (resp : ℕ → AttemptOutcome) (e0 : ErrState)
    (h : ∀ n, ∃ msg, resp n = AttemptOutcome.apiError msg ∧
      isRateLimitMsg msg = true) :
    (batchGetAllSheetData resp e0).attemptsMade = 3 ∧
    (batchGetAllSheetData resp e0).blocks = Option.none ∧
    (getLastErrorInfo (batchGetAllSheetData resp e0).errs).errorType
      = some ErrType.RATE_LIMIT ∧
    (getLastErrorInfo (batchGetAllSheetData resp e0).errs).isRateLimit
      = true := by
  obtain ⟨m0, h0, r0⟩ := h 0
  obtain ⟨m1, h1, r1⟩ := h 1
  obtain ⟨m2, h2, r2⟩ := h 2
  have hrange : List.range 3 = [0, 1, 2] := rfl
  have hrun : batchGetAllSheetData resp e0
      = ⟨⟨some ErrType.RATE_LIMIT, some m2⟩, 3, Option.none⟩ := by
    simp [batchGetAllSheetData, hrange, batchGetLoop, h0, h1, h2, r0, r1, r2,
      recordError]
  rw [hrun]
  exact ⟨rfl, rfl, rfl, rfl⟩

/-- C2, witness: three consecutive rate-limit responses. -/
theorem claim_C2_witness :
    (batchGetAllSheetData (fun _ => AttemptOutcome.apiError "429 RATE_LIMIT_EXCEEDED")
      ⟨Option.none, Option.none⟩).attemptsMade = 3 ∧
    (batchGetAllSheetData (fun _ => AttemptOutcome.apiError "429 RATE_LIMIT_EXCEEDED")
      ⟨Option.none, Option.none⟩).blocks = Option.none ∧
    (getLastErrorInfo (batchGetAllSheetData
      (fun _ => AttemptOutcome.apiError "429 RATE_LIMIT_EXCEEDED")
      ⟨Option.none, Option.none⟩).errs).errorType = some ErrType.RATE_LIMIT ∧
    (getLastErrorInfo (batchGetAllSheetData
      (fun _ => AttemptOutcome.apiError "429 RATE_LIMIT_EXCEEDED")
      ⟨Option.none, Option.none⟩).errs).isRateLimit = true :=
  claim_C2 (fun _ => AttemptOutcome.apiError "429 RATE_LIMIT_EXCEEDED")
    ⟨Option.none, Option.none⟩
    (fun _ => ⟨"429 RATE_LIMIT_EXCEEDED", rfl, by decide⟩)


/-- Binding a successful `Except` computation just applies the
continuation. -/
theorem exceptBind_ok {α β : Type} (a : α) (f : α → Except Unit β) :
    (Except.ok a : Except Unit α) >>= f = f a := rfl

/-- Any row with at least 15 cells projects successfully (all eight
offsets, the largest being 14, exist). -/
theorem projectFunnelRow_ok (row : List String) (h : 15 ≤ row.length) :
    ∃ tr, projectFunnelRow row = Except.ok tr := by
  have g : ∀ i, i < row.length → ∃ v, row[i]? = some v := fun i hi =>
    ⟨row[i], List.getElem?_eq_getElem hi⟩
  obtain ⟨v0, e0⟩ := g 0 (by omega)
  obtain ⟨v6, e6⟩ := g 6 (by omega)
  obtain ⟨v7, e7⟩ := g 7 (by omega)
  obtain ⟨v8, e8⟩ := g 8 (by omega)
  obtain ⟨v9, e9⟩ := g 9 (by omega)
  obtain ⟨v10, e10⟩ := g 10 (by omega)
  obtain ⟨v13, e13⟩ := g 13 (by omega)
  obtain ⟨v14, e14⟩ := g 14 (by omega)
  refine ⟨⟨v0, v6, v7, v8, v9, v10, v13, v14⟩, ?_⟩
  simp [projectFunnelRow, cellIndex, e0, e6, e7, e8, e9, e10, e13, e14,
    exceptBind_ok]

/-- C1, code-bug theorem.  A funnel row with exactly 14 cells passes the
minimum-column-count filter (`len(row) >= 14`) yet is too short for the
projected offset 14; the resulting `IndexError` is caught only by the
function-level handler, so the whole parse returns the empty structure —
losing the other, well-formed row — whereas the same well-formed row alone
parses fine.  The claim (and the spec's parser error policy) says the bad
row is dropped and the parse still returns the other rows. -/
theorem claim_C1_code_bug :
    processFunnelDataBatch
      [[["05/05/2025", "a", "b", "c", "d", "e", "10", "20%", "30%", "40%",
         "50%", "x", "y", "5%", "6%"],
        ["06/05/2025", "a", "b", "c", "d", "e", "11", "21%", "31%", "41%",
         "51%", "x", "y", "7%"]]] = ⟨Option.none, []⟩ ∧
    processFunnelDataBatch
      [[["05/05/2025", "a", "b", "c", "d", "e", "10", "20%", "30%", "40%",
         "50%", "x", "y", "5%", "6%"]]] =
      ⟨some ⟨"05/05/2025", "10", "20%", "30%", "40%", "50%", "5%", "6%"⟩,
       [⟨"05/05/2025", "10", "20%", "30%", "40%", "50%", "5%", "6%"⟩]⟩ := by
  constructor <;> decide

/-- C5, counterexample.  Two rows of exactly 14 columns each — the first
date-like, the second a `Status` header — satisfy the claim's "at least 14
columns" hypothesis, but the parse returns the empty structure (offset 14
of the kept first row raises `IndexError`), not the claimed singleton
`tableData`. -/
theorem claim_C5_counterexample :
    processFunnelDataBatch
      [[["05/05/2025", "a", "b", "c", "d", "e", "10", "20%", "30%", "40%",
         "50%", "x", "y", "5%"],
        ["Status", "a", "b", "c", "d", "e", "11", "21%", "31%", "41%",
         "51%", "x", "y", "7%"]]] = ⟨Option.none, []⟩ ∧
    (processFunnelDataBatch
      [[["05/05/2025", "a", "b", "c", "d", "e", "10", "20%", "30%", "40%",
         "50%", "x", "y", "5%"],
        ["Status", "a", "b", "c", "d", "e", "11", "21%", "31%", "41%",
         "51%", "x", "y", "7%"]]]).table_data.length ≠ 1 := by
  constructor <;> decide

/-- C5, amended claim: for a funnel payload of two rows where the first
starts with the date-like cell `"05/05/2025"` and has at least 15 columns
(enough for all eight projected offsets) and the second starts with
`"Status"` and has at least 14 columns, the parser drops the second row
(header keyword) and returns the first row's projection as the sole
`tableData` entry and as `rawData`. -/
theorem claim_C5_amended (rest1 rest2 : List String)
    (h1 : 15 ≤ ("05/05/2025" :: rest1).length)
    (h2 : 14 ≤ ("Status" :: rest2).length) :
    ∃ tr : FunnelRow,
      projectFunnelRow ("05/05/2025" :: rest1) = Except.ok tr ∧
      processFunnelDataBatch [[("05/05/2025" :: rest1), ("Status" :: rest2)]]
        = ⟨some tr, [tr]⟩ := by
  obtain ⟨tr, htr⟩ := projectFunnelRow_ok _ h1
  refine ⟨tr, htr, ?_⟩
  have hf1 : funnelFirstCol ("05/05/2025" :: rest1) = Except.ok "05/05/2025" := rfl
  have hf2 : funnelFirstCol ("Status" :: rest2) = Except.ok "Status" := rfl
  have hh1 : isHeaderCell "05/05/2025" = false := rfl
  have hd1 : notDateLike "05/05/2025" = false := rfl
  have hh2 : isHeaderCell "Status" = true := rfl
  have e1 : decide (14 ≤ ("05/05/2025" :: rest1).length) = true :=
    decide_eq_true (by omega)
  have e2 : decide (14 ≤ ("Status" :: rest2).length) = true :=
    decide_eq_true h2
  have hloop : funnelRowLoop [("05/05/2025" :: rest1), ("Status" :: rest2)]
      = Except.ok [tr] := by
    simp [funnelRowLoop, hf1, hf2, hh1, hd1, hh2, htr, exceptBind_ok]
  have h1' : 13 ≤ rest1.length := by
    simp only [List.length_cons] at h1; omega
  have h2' : 13 ≤ rest2.length := by
    simp only [List.length_cons] at h2; omega
  simp [processFunnelDataBatch, List.filter_cons, h1', h2', hloop]

/-- C5, witness for the amended claim: concrete rows of 15 and 14
columns. -/
theorem claim_C5_witness :
    ∃ tr : FunnelRow,
      projectFunnelRow ["05/05/2025", "a", "b", "c", "d", "e", "10", "20%",
        "30%", "40%", "50%", "x", "y", "5%", "6%"] = Except.ok tr ∧
      processFunnelDataBatch
        [[["05/05/2025", "a", "b", "c", "d", "e", "10", "20%", "30%", "40%",
           "50%", "x", "y", "5%", "6%"],
          ["Status", "a", "b", "c", "d", "e", "11", "21%", "31%", "41%",
           "51%", "x", "y", "7%"]]] = ⟨some tr, [tr]⟩ :=
  claim_C5_amended
    ["a", "b", "c", "d", "e", "10", "20%", "30%", "40%", "50%", "x", "y",
     "5%", "6%"]
    ["a", "b", "c", "d", "e", "11", "21%", "31%", "41%", "51%", "x", "y",
     "7%"] (by decide) (by decide)

/-- Every configured division formula has the shape
`numerator / variable * 100`, for which the text after the last slash is
`variable * 100`; when the variable is 0 the short-circuit fires. -/
theorem calcMetric_ratio_shape (k fmt cat : String) (numE : Expr)
    (v : String) (data : List (String × ℚ)) (h : envOf data v = 0) :
    calculateMetric data
      ⟨k, Expr.mul (Expr.div numE (Expr.var v)) (Expr.num 100), true,
       Expr.mul (Expr.var v) (Expr.num 100), fmt, cat⟩ = some 0 := by
  simp [calculateMetric, evalExpr, h, exceptBind_ok]

/-- C4, claim theorem.  For every configured metric formula and every
field map: if the formula contains a division whose denominator
sub-expression evaluates to zero (missing variables defaulting to 0),
`calculate_metric` returns exactly 0 — it neither raises a division error
nor returns `None` for that reason. -/
theorem claim_C4 : ∀ e ∈ metricsConfig, ∀ d ∈ denomExprs e.ast,
    ∀ data : List (String × ℚ), evalExpr (envOf data) d = Except.ok 0 →
    calculateMetric data e = some 0 := by
  intro e he d hd data hzero
  fin_cases he <;> simp [denomExprs] at hd <;>
    (subst hd; simp [evalExpr] at hzero;
     exact calcMetric_ratio_shape _ _ _ _ _ _ hzero)

/-- C4, witness: the onsite-VIP percentage formula on an empty field map
(the denominator `total_deals` defaults to 0). -/
theorem claim_C4_witness :
    calculateMetric []
      ⟨"onsite_vip_percentage",
       Expr.mul (Expr.div (Expr.var "onsite_vip") (Expr.var "total_deals"))
         (Expr.num 100),
       true, Expr.mul (Expr.var "total_deals") (Expr.num 100), "pct1",
       "vip"⟩ = some 0 :=
  claim_C4 _ (by decide) (Expr.var "total_deals") (by decide) [] rfl


/-- A list made of positive-filtered values that are all nonpositive
averages to 0 (no positive contributors, no division). -/
theorem posAvg_nonpos (l : List ℚ) (h : ∀ v ∈ l, v ≤ 0) : posAvg l = 0 := by
  have hf : l.filter (fun v => decide (0 < v)) = [] := by
    rw [List.filter_eq_nil_iff]
    intro a ha
    simpa using not_lt.2 (h a ha)
  simp [posAvg, hf]

/-- Removing a zero-valued element from the middle of a list does not
change the positive-contributor average. -/
theorem posAvg_middle_zero (f : WeekData → ℚ) (l1 l2 : List WeekData)
    (w : WeekData) (h : f w = 0) :
    posAvg ((l1 ++ w :: l2).map f) = posAvg ((l1 ++ l2).map f) := by
  have hfil : ((l1 ++ w :: l2).map f).filter (fun v => decide (0 < v))
      = ((l1 ++ l2).map f).filter (fun v => decide (0 < v)) := by
    simp [List.map_append, List.filter_append, List.filter_cons, h]
  simp only [posAvg]
  rw [hfil]

/-- When the weekly list is non-empty, the velocity `raw_data` holds, for
each metric, the positive-contributor average over the weekly list. -/
theorem velocity_raw_of_ne (blocks : List (List (List String)))
    (h : ¬ (processVelocityDataBatch blocks).weekly_data.isEmpty) :
    (processVelocityDataBatch blocks).raw_data = some
      ⟨posAvg ((processVelocityDataBatch blocks).weekly_data.map (fun w => w.lead_to_sql)),
       posAvg ((processVelocityDataBatch blocks).weekly_data.map (fun w => w.lead_to_ms)),
       posAvg ((processVelocityDataBatch blocks).weekly_data.map (fun w => w.ms_to_1st_meeting)),
       posAvg ((processVelocityDataBatch blocks).weekly_data.map (fun w => w.ms_to_mc)),
       posAvg ((processVelocityDataBatch blocks).weekly_data.map (fun w => w.mc_to_closed)),
       posAvg ((processVelocityDataBatch blocks).weekly_data.map (fun w => w.lead_to_win))⟩ := by
  cases blocks with
  | nil => simp [processVelocityDataBatch] at h
  | cons b bs =>
      by_cases hb : b.isEmpty
      · simp [processVelocityDataBatch, hb] at h
      · by_cases hc : (findWeeklyCohorts b).isEmpty
        · simp [processVelocityDataBatch, hb, hc] at h
        · by_cases hw : ((findWeeklyCohorts b).filterMap (cohortWeek b)).isEmpty
          · simp [processVelocityDataBatch, hb, hc, hw] at h
          · simp [processVelocityDataBatch, hb, hc, hw]

/-- C8, claim theorem.  In every velocity parse, a weekly cohort whose six
duration metrics are all zero appears in the weekly list yet contributes
to none of the six per-metric averages in `raw_data` (each average equals
the positive-contributor average over the remaining weeks); and when a
metric has no positive contributor at all, its average is 0, never a
division error. -/
theorem claim_C8 (blocks : List (List (List String))) (l1 l2 : List WeekData)
    (w : WeekData)
    (hsplit : (processVelocityDataBatch blocks).weekly_data = l1 ++ w :: l2)
    (hzero : ∀ m : VMetric, getVM w m = 0) :
    ∃ avgs : VelocityAverages,
      (processVelocityDataBatch blocks).raw_data = some avgs ∧
      (∀ m : VMetric,
        getAvg avgs m = posAvg ((l1 ++ l2).map (fun x => getVM x m))) ∧
      (∀ m : VMetric,
        (∀ v ∈ (l1 ++ l2).map (fun x => getVM x m), v ≤ 0) →
        getAvg avgs m = 0) := by
  have hne : ¬ (processVelocityDataBatch blocks).weekly_data.isEmpty := by
    rw [hsplit]; simp
  have havg : ∀ m : VMetric,
      getAvg
        ⟨posAvg ((processVelocityDataBatch blocks).weekly_data.map (fun x => x.lead_to_sql)),
         posAvg ((processVelocityDataBatch blocks).weekly_data.map (fun x => x.lead_to_ms)),
         posAvg ((processVelocityDataBatch blocks).weekly_data.map (fun x => x.ms_to_1st_meeting)),
         posAvg ((processVelocityDataBatch blocks).weekly_data.map (fun x => x.ms_to_mc)),
         posAvg ((processVelocityDataBatch blocks).weekly_data.map (fun x => x.mc_to_closed)),
         posAvg ((processVelocityDataBatch blocks).weekly_data.map (fun x => x.lead_to_win))⟩
        m = posAvg ((l1 ++ l2).map (fun x => getVM x m)) := by
    intro m
    have hz := hzero m
    cases m <;>
      simp only [getAvg, getVM] <;>
      rw [hsplit] <;>
      exact posAvg_middle_zero _ l1 l2 w (by simpa [getVM] using hz)
  refine ⟨_, velocity_raw_of_ne blocks hne, havg, ?_⟩
  intro m hnp
  rw [havg m]
  exact posAvg_nonpos _ hnp

/-- C8, witness: a sheet with two cohorts, the first one's data row empty
(all six metrics 0), the second with positive metrics. -/
theorem claim_C8_witness :
    ∃ avgs : VelocityAverages,
      (processVelocityDataBatch
        [[["28/04/2025 - 04/05/2025"], [],
          ["05/05/2025 - 11/05/2025"],
          ["", "", "", "2", "4", "6", "8", "10", "12"]]]).raw_data
        = some avgs ∧
      (∀ m : VMetric,
        getAvg avgs m = posAvg
          ((([] : List WeekData) ++
            [(⟨"05/05/2025 - 11/05/2025", 2, 4, 6, 8, 10, 12⟩ : WeekData)]).map
            (fun x => getVM x m))) ∧
      (∀ m : VMetric,
        (∀ v ∈ ((([] : List WeekData) ++
            [(⟨"05/05/2025 - 11/05/2025", 2, 4, 6, 8, 10, 12⟩ : WeekData)]).map
            (fun x => getVM x m)), v ≤ 0) →
        getAvg avgs m = 0) :=
  claim_C8
    [[["28/04/2025 - 04/05/2025"], [],
      ["05/05/2025 - 11/05/2025"],
      ["", "", "", "2", "4", "6", "8", "10", "12"]]]
    [] [⟨"05/05/2025 - 11/05/2025", 2, 4, 6, 8, 10, 12⟩]
    ⟨"28/04/2025 - 04/05/2025", 0, 0, 0, 0, 0, 0⟩
    (by decide) (by intro m; cases m <;> rfl)


/-- Effect of one dict-accumulate step on a field of the looked-up
record. -/
theorem alookup_dictAdd {α : Type} (add : α → α → α) (proj : α → ℚ)
    (hadd : ∀ x y, proj (add x y) = proj x + proj y)
    (l : List (String × α)) (k : String) (v : α) (m : String) :
    projOpt proj (alookup (dictAdd add l k v) m) =
      projOpt proj (alookup l m) + (if k = m then proj v else 0) := by
  induction l with
  | nil => by_cases h : k = m <;> simp [dictAdd, alookup, projOpt, h]
  | cons p t ih =>
      by_cases hpk : p.1 = k
      · by_cases hpm : p.1 = m
        · have hk : k = m := hpk.symm.trans hpm
          simp [dictAdd, alookup, hpk, hpm, projOpt, hadd, hk]
        · have hk : ¬ (k = m) := fun hh => hpm (hpk.trans hh)
          simp [dictAdd, alookup, hpk, hpm, projOpt, hk]
      · by_cases hpm : p.1 = m
        · have hk : ¬ (k = m) := fun hh => hpk (by rw [hpm, hh])
          have hmk : ¬ (m = k) := fun hh => hk hh.symm
          simp [dictAdd, alookup, hpk, hpm, projOpt, hk, hmk]
        · simp [dictAdd, alookup, hpk, hpm, ih]

/-- Folding a flat list of month pairs into a dict adds, on each field of
each key, exactly the sum of that key's contributions. -/
theorem projOpt_dictFold {α : Type} (add : α → α → α) (proj : α → ℚ)
    (hadd : ∀ x y, proj (add x y) = proj x + proj y)
    (ps : List (String × α)) (acc : List (String × α)) (m : String) :
    projOpt proj (alookup (ps.foldl (fun a p => dictAdd add a p.1 p.2) acc) m) =
      projOpt proj (alookup acc m) + pairProjSum proj ps m := by
  induction ps generalizing acc with
  | nil => simp [pairProjSum]
  | cons p t ih =>
      rw [List.foldl_cons, ih, alookup_dictAdd add proj hadd]
      by_cases h : p.1 = m <;>
        simp [pairProjSum, List.filter_cons, h] <;> ring

/-- The country-by-country double fold equals the fold over the flattened
pair list. -/
theorem foldl_nested {α : Type} (add : α → α → α)
    (countries : List (List (String × α))) (acc : List (String × α)) :
    countries.foldl (fun a c => c.foldl (fun a p => dictAdd add a p.1 p.2) a) acc
      = countries.flatten.foldl (fun a p => dictAdd add a p.1 p.2) acc := by
  induction countries generalizing acc with
  | nil => simp
  | cons c t ih =>
      rw [List.foldl_cons, ih, List.flatten_cons, List.foldl_append]

/-- `pairProjSum` distributes over append. -/
theorem pairProjSum_append {α : Type} (proj : α → ℚ)
    (a b : List (String × α)) (m : String) :
    pairProjSum proj (a ++ b) m = pairProjSum proj a m + pairProjSum proj b m := by
  simp [pairProjSum, List.filter_append]

/-- `pairProjSum` over a flattened list is the sum of the per-country
sums. -/
theorem pairProjSum_flatten {α : Type} (proj : α → ℚ)
    (L : List (List (String × α))) (m : String) :
    pairProjSum proj L.flatten m = (L.map (fun c => pairProjSum proj c m)).sum := by
  induction L with
  | nil => simp [pairProjSum]
  | cons c t ih => simp [List.flatten_cons, pairProjSum_append, ih]

/-- A key that does not occur contributes nothing. -/
theorem pairProjSum_of_not_mem {α : Type} (proj : α → ℚ)
    (ps : List (String × α)) (m : String) (h : m ∉ ps.map Prod.fst) :
    pairProjSum proj ps m = 0 := by
  induction ps with
  | nil => simp [pairProjSum]
  | cons p t ih =>
      simp only [List.map_cons, List.mem_cons, not_or] at h
      have hne : ¬ (p.1 = m) := fun e => h.1 e.symm
      have hstep : pairProjSum proj (p :: t) m = pairProjSum proj t m := by
        simp [pairProjSum, List.filter_cons, hne]
      rw [hstep, ih h.2]

/-- For a dict (no duplicate keys), the per-key contribution sum is the
looked-up record's field. -/
theorem pairProjSum_nodup {α : Type} (proj : α → ℚ)
    (c : List (String × α)) (m : String) (h : (c.map Prod.fst).Nodup) :
    pairProjSum proj c m = projOpt proj (alookup c m) := by
  induction c with
  | nil => simp [pairProjSum, alookup, projOpt]
  | cons p t ih =>
      rw [List.map_cons, List.nodup_cons] at h
      by_cases hm : p.1 = m
      · have hnm : m ∉ t.map Prod.fst := hm ▸ h.1
        have hz : pairProjSum proj t m = 0 :=
          pairProjSum_of_not_mem proj t m hnm
        have hstep : pairProjSum proj (p :: t) m
            = proj p.2 + pairProjSum proj t m := by
          simp [pairProjSum, List.filter_cons, hm]
        rw [hstep, hz]
        simp [alookup, hm, projOpt]
      · have hstep : pairProjSum proj (p :: t) m = pairProjSum proj t m := by
          simp [pairProjSum, List.filter_cons, hm]
        rw [hstep, ih h.2]
        simp [alookup, hm]

/-- A successful association-list lookup comes from a member pair. -/
theorem alookup_mem {α : Type} (l : List (String × α)) (m : String) (v : α)
    (h : alookup l m = some v) : (m, v) ∈ l := by
  induction l with
  | nil => simp [alookup] at h
  | cons p t ih =>
      by_cases hm : p.1 = m
      · simp only [alookup, if_pos hm] at h
        injection h with h2
        subst hm
        subst h2
        exact List.mem_cons_self _ _
      · simp only [alookup, if_neg hm] at h
        exact List.mem_cons_of_mem _ (ih h)

/-- If every record's field is nonnegative, so is the regional sum. -/
theorem monthFieldSum_nonneg {α : Type} (proj : α → ℚ)
    (countries : List (List (String × α))) (m : String)
    (h : ∀ c ∈ countries, ∀ p ∈ c, 0 ≤ proj p.2) :
    0 ≤ monthFieldSum proj countries m := by
  unfold monthFieldSum
  apply List.sum_nonneg
  intro x hx
  simp only [List.mem_map] at hx
  obtain ⟨c, hc, rfl⟩ := hx
  cases ha : alookup c m with
  | none => simp [projOpt]
  | some v =>
      simp only [projOpt]
      exact h c hc (m, v) (alookup_mem c m v ha)

/-- Looking up a month in the regional sums map gives, on each additive
field, exactly the per-field sum of that month across all countries. -/
theorem regional_lookup_proj {α : Type} (add : α → α → α) (proj : α → ℚ)
    (hadd : ∀ x y, proj (add x y) = proj x + proj y)
    (countries : List (List (String × α))) (m : String) (t : α)
    (hl : alookup (regionalMonthlySums add countries) m = some t)
    (hnd : ∀ c ∈ countries, (c.map Prod.fst).Nodup) :
    proj t = monthFieldSum proj countries m := by
  have h1 := projOpt_dictFold add proj hadd countries.flatten [] m
  rw [← foldl_nested] at h1
  unfold regionalMonthlySums at hl
  rw [hl] at h1
  simp only [alookup, projOpt, zero_add] at h1
  rw [h1, pairProjSum_flatten]
  unfold monthFieldSum
  congr 1
  exact List.map_congr_left (fun c hc => pairProjSum_nodup proj c m (hnd c hc))

/-- Lookup through a value-mapped association list. -/
theorem alookup_map {α β : Type} (g : α → β) (l : List (String × α))
    (m : String) :
    alookup (l.map (fun p => (p.1, g p.2))) m = (alookup l m).map g := by
  induction l with
  | nil => simp [alookup]
  | cons p t ih => by_cases h : p.1 = m <;> simp [alookup, h, ih]

/-- C9, claim theorem.  For every set of per-country VIP and membership
monthly records (each country's month map a genuine dict, all totals
nonnegative as the parsers guarantee), the regional record of each month
label carries the per-field sums across countries, and every regional
percentage is recomputed from those summed numerators and denominators —
0 when the summed denominator is 0 — never by averaging per-country
percentages. -/
theorem claim_C9 :
    (∀ countries : List (List (String × VipMonth)),
      (∀ c ∈ countries, (c.map Prod.fst).Nodup) →
      (∀ c ∈ countries, ∀ p ∈ c, 0 ≤ p.2.total_deals) →
      ∀ m r, alookup (aggregateRegionalVip countries) m = some r →
        r.total_deals = monthFieldSum VipMonth.total_deals countries m ∧
        r.onsite_vip_deals = monthFieldSum VipMonth.onsite_vip_deals countries m ∧
        r.remote_vip_deals = monthFieldSum VipMonth.remote_vip_deals countries m ∧
        r.onsite_vip_percentage =
          (if monthFieldSum VipMonth.total_deals countries m = 0 then 0
           else monthFieldSum VipMonth.onsite_vip_deals countries m /
             monthFieldSum VipMonth.total_deals countries m * 100) ∧
        r.remote_vip_percentage =
          (if monthFieldSum VipMonth.total_deals countries m = 0 then 0
           else monthFieldSum VipMonth.remote_vip_deals countries m /
             monthFieldSum VipMonth.total_deals countries m * 100) ∧
        r.total_vip_percentage =
          r.onsite_vip_percentage + r.remote_vip_percentage) ∧
    (∀ countries : List (List (String × MemMonth)),
      (∀ c ∈ countries, (c.map Prod.fst).Nodup) →
      (∀ c ∈ countries, ∀ p ∈ c, 0 ≤ p.2.total_deals) →
      ∀ m r, alookup (aggregateRegionalMembership countries) m = some r →
        r.total_deals = monthFieldSum MemMonth.total_deals countries m ∧
        r.membership_1 = monthFieldSum MemMonth.membership_1 countries m ∧
        r.membership_2 = monthFieldSum MemMonth.membership_2 countries m ∧
        r.membership_attachment_rate =
          (if monthFieldSum MemMonth.total_deals countries m = 0 then 0
           else (monthFieldSum MemMonth.membership_1 countries m +
             monthFieldSum MemMonth.membership_2 countries m) /
             monthFieldSum MemMonth.total_deals countries m * 100)) := by
  constructor
  · intro countries hnd hpos m r hl
    unfold aggregateRegionalVip at hl
    rw [alookup_map] at hl
    cases halo : alookup (regionalMonthlySums VipMonth.addM countries) m with
    | none => rw [halo] at hl; simp at hl
    | some t =>
        rw [halo] at hl
        simp only [Option.map_some', Option.some.injEq] at hl
        have h1 := regional_lookup_proj VipMonth.addM VipMonth.total_deals
          (fun x y => rfl) countries m t halo hnd
        have h2 := regional_lookup_proj VipMonth.addM VipMonth.onsite_vip_deals
          (fun x y => rfl) countries m t halo hnd
        have h3 := regional_lookup_proj VipMonth.addM VipMonth.remote_vip_deals
          (fun x y => rfl) countries m t halo hnd
        have hS : 0 ≤ monthFieldSum VipMonth.total_deals countries m :=
          monthFieldSum_nonneg _ _ _ hpos
        have hT : 0 ≤ t.total_deals := h1 ▸ hS
        have e_op : (vipRecompute t).onsite_vip_percentage =
            (if 0 < t.total_deals then
              t.onsite_vip_deals / t.total_deals * 100 else 0) := rfl
        have e_rp : (vipRecompute t).remote_vip_percentage =
            (if 0 < t.total_deals then
              t.remote_vip_deals / t.total_deals * 100 else 0) := rfl
        have e_tp : (vipRecompute t).total_vip_percentage =
            (vipRecompute t).onsite_vip_percentage +
              (vipRecompute t).remote_vip_percentage := rfl
        rw [← hl]
        refine ⟨h1, h2, h3, ?_, ?_, e_tp⟩
        · rw [← h1, ← h2, e_op]
          by_cases h0 : t.total_deals = 0
          · simp [h0]
          · have hpos' : 0 < t.total_deals :=
              lt_of_le_of_ne hT (Ne.symm h0)
            simp [h0, hpos']
        · rw [← h1, ← h3, e_rp]
          by_cases h0 : t.total_deals = 0
          · simp [h0]
          · have hpos' : 0 < t.total_deals :=
              lt_of_le_of_ne hT (Ne.symm h0)
            simp [h0, hpos']
  · intro countries hnd hpos m r hl
    unfold aggregateRegionalMembership at hl
    rw [alookup_map] at hl
    cases halo : alookup (regionalMonthlySums MemMonth.addM countries) m with
    | none => rw [halo] at hl; simp at hl
    | some t =>
        rw [halo] at hl
        simp only [Option.map_some', Option.some.injEq] at hl
        have h1 := regional_lookup_proj MemMonth.addM MemMonth.total_deals
          (fun x y => rfl) countries m t halo hnd
        have h2 := regional_lookup_proj MemMonth.addM MemMonth.membership_1
          (fun x y => rfl) countries m t halo hnd
        have h3 := regional_lookup_proj MemMonth.addM MemMonth.membership_2
          (fun x y => rfl) countries m t halo hnd
        have hS : 0 ≤ monthFieldSum MemMonth.total_deals countries m :=
          monthFieldSum_nonneg _ _ _ hpos
        have hT : 0 ≤ t.total_deals := h1 ▸ hS
        have e_r : (memRecompute t).membership_attachment_rate =
            (if 0 < t.total_deals then
              (t.membership_1 + t.membership_2) / t.total_deals * 100
             else 0) := rfl
        rw [← hl]
        refine ⟨h1, h2, h3, ?_⟩
        rw [← h1, ← h2, ← h3, e_r]
        by_cases h0 : t.total_deals = 0
        · simp [h0]
        · have hpos' : 0 < t.total_deals :=
            lt_of_le_of_ne hT (Ne.symm h0)
          simp [h0, hpos']

/-- C9, witness: two countries sharing the month label, for VIP and for
membership. -/
theorem claim_C9_witness :
    ((⟨40, 10, 5, 25, 25 / 2, 25 + 25 / 2⟩ : VipRegionalMonth).total_deals
        = monthFieldSum VipMonth.total_deals
          [[("May 2025", ⟨10, 4, 2⟩)], [("May 2025", ⟨30, 6, 3⟩)]] "May 2025" ∧
      (⟨40, 10, 5, 25, 25 / 2, 25 + 25 / 2⟩ : VipRegionalMonth).onsite_vip_deals
        = monthFieldSum VipMonth.onsite_vip_deals
          [[("May 2025", ⟨10, 4, 2⟩)], [("May 2025", ⟨30, 6, 3⟩)]] "May 2025" ∧
      (⟨40, 10, 5, 25, 25 / 2, 25 + 25 / 2⟩ : VipRegionalMonth).remote_vip_deals
        = monthFieldSum VipMonth.remote_vip_deals
          [[("May 2025", ⟨10, 4, 2⟩)], [("May 2025", ⟨30, 6, 3⟩)]] "May 2025" ∧
      (⟨40, 10, 5, 25, 25 / 2, 25 + 25 / 2⟩ : VipRegionalMonth).onsite_vip_percentage
        = (if monthFieldSum VipMonth.total_deals
            [[("May 2025", ⟨10, 4, 2⟩)], [("May 2025", ⟨30, 6, 3⟩)]] "May 2025" = 0
           then 0
           else monthFieldSum VipMonth.onsite_vip_deals
             [[("May 2025", ⟨10, 4, 2⟩)], [("May 2025", ⟨30, 6, 3⟩)]] "May 2025" /
             monthFieldSum VipMonth.total_deals
             [[("May 2025", ⟨10, 4, 2⟩)], [("May 2025", ⟨30, 6, 3⟩)]] "May 2025" * 100) ∧
      (⟨40, 10, 5, 25, 25 / 2, 25 + 25 / 2⟩ : VipRegionalMonth).remote_vip_percentage
        = (if monthFieldSum VipMonth.total_deals
            [[("May 2025", ⟨10, 4, 2⟩)], [("May 2025", ⟨30, 6, 3⟩)]] "May 2025" = 0
           then 0
           else monthFieldSum VipMonth.remote_vip_deals
             [[("May 2025", ⟨10, 4, 2⟩)], [("May 2025", ⟨30, 6, 3⟩)]] "May 2025" /
             monthFieldSum VipMonth.total_deals
             [[("May 2025", ⟨10, 4, 2⟩)], [("May 2025", ⟨30, 6, 3⟩)]] "May 2025" * 100) ∧
      (⟨40, 10, 5, 25, 25 / 2, 25 + 25 / 2⟩ : VipRegionalMonth).total_vip_percentage
        = (⟨40, 10, 5, 25, 25 / 2, 25 + 25 / 2⟩ : VipRegionalMonth).onsite_vip_percentage +
          (⟨40, 10, 5, 25, 25 / 2, 25 + 25 / 2⟩ : VipRegionalMonth).remote_vip_percentage) ∧
    ((⟨20, 4, 6, 50⟩ : MemRegionalMonth).total_deals
        = monthFieldSum MemMonth.total_deals
          [[("May 2025", ⟨10, 1, 2⟩)], [("May 2025", ⟨10, 3, 4⟩)]] "May 2025" ∧
      (⟨20, 4, 6, 50⟩ : MemRegionalMonth).membership_1
        = monthFieldSum MemMonth.membership_1
          [[("May 2025", ⟨10, 1, 2⟩)], [("May 2025", ⟨10, 3, 4⟩)]] "May 2025" ∧
      (⟨20, 4, 6, 50⟩ : MemRegionalMonth).membership_2
        = monthFieldSum MemMonth.membership_2
          [[("May 2025", ⟨10, 1, 2⟩)], [("May 2025", ⟨10, 3, 4⟩)]] "May 2025" ∧
      (⟨20, 4, 6, 50⟩ : MemRegionalMonth).membership_attachment_rate
        = (if monthFieldSum MemMonth.total_deals
            [[("May 2025", ⟨10, 1, 2⟩)], [("May 2025", ⟨10, 3, 4⟩)]] "May 2025" = 0
           then 0
           else (monthFieldSum MemMonth.membership_1
             [[("May 2025", ⟨10, 1, 2⟩)], [("May 2025", ⟨10, 3, 4⟩)]] "May 2025" +
             monthFieldSum MemMonth.membership_2
             [[("May 2025", ⟨10, 1, 2⟩)], [("May 2025", ⟨10, 3, 4⟩)]] "May 2025") /
             monthFieldSum MemMonth.total_deals
             [[("May 2025", ⟨10, 1, 2⟩)], [("May 2025", ⟨10, 3, 4⟩)]] "May 2025" * 100)) :=
  ⟨claim_C9.1 [[("May 2025", ⟨10, 4, 2⟩)], [("May 2025", ⟨30, 6, 3⟩)]]
    (by simp) (by norm_num) "May 2025" ⟨40, 10, 5, 25, 25 / 2, 25 + 25 / 2⟩
    (by simp [aggregateRegionalVip, regionalMonthlySums, dictAdd, alookup,
          vipRecompute, VipMonth.addM]
        norm_num),
   claim_C9.2 [[("May 2025", ⟨10, 1, 2⟩)], [("May 2025", ⟨10, 3, 4⟩)]]
    (by simp) (by norm_num) "May 2025" ⟨20, 4, 6, 50⟩
    (by simp [aggregateRegionalMembership, regionalMonthlySums, dictAdd,
          alookup, memRecompute, MemMonth.addM]
        norm_num)⟩

end SalesDash
